import Mathlib

/-!
Verification development for the LETO knowledge-graph core
(`leto/model.py`, `leto/query/__init__.py`, `leto/storage/dummy.py`,
`leto/visualization/__init__.py`).

The Python source is shallowly embedded: classes become structures,
generators over the stored relations become `List.filter`, Python
exceptions become `Except PyError`, and the dynamic runtime rule that a
class defining `__eq__` without `__hash__` is unhashable is recorded as
explicit boolean facts about the embedded classes.
-/

namespace Leto

/-- Attribute values carried in the open-ended attribute bags of
`Entity`/`Relation` (numbers and strings in practice).  Python
truthiness (`0`, `""` are falsy) is modelled by `Value.truthy`. -/
inductive Value where
  | str (s : String)
  | num (n : Int)
deriving DecidableEq, Repr

/-- Python truthiness of an attribute value. -/
def Value.truthy : Value → Bool
  | .str s => s ≠ ""
  | .num n => n ≠ 0

/-- `leto/model.py` `Entity`: `name`, `type`, plus extra keyword
attributes.  The source stores the extras via `setattr`; the
visualization layer reads them back as a mapping `attrs` with
dict-style `get` (modelled from the spec's "open-ended mapping of extra
named attributes", since the accessor side lives outside `model.py`). -/
structure Entity where
  name : String
  type : String
  attrs : List (String × Value) := []
deriving DecidableEq, Repr

/-- `Entity.__str__`: `f"{self.name}:{self.type}"`. -/
def Entity.str (e : Entity) : String :=
  e.name ++ ":" ++ e.type

/-- `Entity.__eq__`: `str(self) == str(o)` — attributes are ignored. -/
def entityEq (a b : Entity) : Bool :=
  a.str == b.str

/-- `leto/model.py` `Relation`: `label`, `entity_from`, `entity_to`,
plus extra keyword attributes (same modelling note as for `Entity`). -/
structure Relation where
  label : String
  entity_from : Entity
  entity_to : Entity
  attrs : List (String × Value) := []
deriving DecidableEq, Repr

/-- `Relation.__str__`: `f"({self.entity_from}) -[{self.label}]-> ({self.entity_to})"`. -/
def Relation.str (r : Relation) : String :=
  "(" ++ r.entity_from.str ++ ") -[" ++ r.label ++ "]-> (" ++ r.entity_to.str ++ ")"

/-- `Relation.__eq__`: `str(self) == str(o)` — attributes are ignored. -/
def relationEq (a b : Relation) : Bool :=
  a.str == b.str

/-- Python exceptions that the embedded code can raise. -/
inductive PyError where
  | typeError
  | valueError
deriving DecidableEq, Repr

/-- `model.py` defines `Entity.__eq__`. -/
def Entity.definesEq : Bool := true

/-- `model.py` defines no `Entity.__hash__`. -/
def Entity.definesHash : Bool := false

/-- `model.py` defines `Relation.__eq__`. -/
def Relation.definesEq : Bool := true

/-- `model.py` defines no `Relation.__hash__`. -/
def Relation.definesHash : Bool := false

/-- Python data model: a class that defines `__eq__` and does not define
`__hash__` has its `__hash__` set to `None`, so its instances are
unhashable. -/
def Entity.hashable : Bool := Entity.definesHash || !Entity.definesEq

/-- Hashability of `Relation` instances under the same Python rule. -/
def Relation.hashable : Bool := Relation.definesHash || !Relation.definesEq

/-- The deduplicating insertion a Python `set.add` would perform on a
hashable element: keep the set unchanged when an `__eq__`-equal element
is already present. -/
def pySetInsert (s : List Relation) (r : Relation) : List Relation :=
  if s.any (fun x => relationEq x r) then s else s ++ [r]

/-- `DummyStorage.store`: `self.storage.add(relation)` on a Python
`set`.  Hashing the relation comes first; since `Relation` is
unhashable this raises `TypeError` before any insertion happens.
The subsequent `self._save()` pickle write is unreachable and is a
file-system side effect outside the embedded state. -/
def DummyStorage.store (r : Relation) (s : List Relation) :
    Except PyError (List Relation) :=
  if Relation.hashable then .ok (pySetInsert s r) else .error .typeError

/-- `DummyStorage.size`: `len(self.storage)`. -/
def DummyStorage.size (s : List Relation) : Nat := s.length

/-- Python `set(iterable)` over relations: hashes each element as it is
added, so it raises `TypeError` as soon as one element exists; the
empty iterable builds the empty set without hashing anything. -/
def pySetOfList (l : List Relation) : Except PyError (List Relation) :=
  if l.isEmpty then .ok []
  else if Relation.hashable then .ok (l.foldl pySetInsert []) else .error .typeError

/-- Base-class `QueryResolver.resolve`: `list(set(self._resolve(query)))`
applied to the relations produced by `_resolve`. -/
def QueryResolver.resolve (resolved : List Relation) : Except PyError (List Relation) :=
  pySetOfList resolved

/-- `leto/query/__init__.py` query variants.  The dataclasses declare
`entities`/`relations`/`attributes` lists; the fields the in-memory
resolver actually reads (`terms` on `MatchQuery`, `entity`/`relation`
on `WhatQuery`/`WhoQuery`) are attached dynamically by the rule-based
text front end (`leto/query/rules.py`, not part of the provided
sources) — those payloads are modelled from the spec's description of
what each variant carries. -/
inductive Query where
  | matchQ (terms : List String)
  | what (entity : String) (relation : String)
  | who (entity : String) (relation : String)
  | howMany (entities relations attributes : List String)
  | whichQ (entities relations attributes : List String)
  | whereQ (entities relations attributes : List String)
  | predict (entities relations attributes : List String)
deriving DecidableEq, Repr

/-- `DummyQueryResolver.query_match`: yield the stored relations whose
from-entity name, label, or to-entity name is among the query terms. -/
def query_match (s : List Relation) (terms : List String) : List Relation :=
  s.filter (fun r =>
    terms.contains r.entity_from.name || terms.contains r.label ||
      terms.contains r.entity_to.name)

/-- `DummyQueryResolver.query_what`: yield the stored relations with
`r.entity_from.name == query.entity and r.label == query.relation`. -/
def query_what (s : List Relation) (entity relation : String) : List Relation :=
  s.filter (fun r => r.entity_from.name == entity && r.label == relation)

/-- `DummyQueryResolver.query_who`: yield the stored relations with
`r.entity_to.name == query.entity and r.label == query.relation`. -/
def query_who (s : List Relation) (entity relation : String) : List Relation :=
  s.filter (fun r => r.entity_to.name == entity && r.label == relation)

/-- `DummyQueryResolver.resolve`: `isinstance` dispatch over
Match/What/Who; any other variant falls through every branch, and the
function returns Python `None` (modelled as `none`). -/
def DummyQueryResolver.resolve (q : Query) (s : List Relation) :
    Option (List Relation) :=
  match q with
  | .matchQ terms => some (query_match s terms)
  | .what entity relation => some (query_what s entity relation)
  | .who entity relation => some (query_who s entity relation)
  | _ => none

/-- `leto/visualization/__init__.py` `Visualization`: a candidate
presentation (`title`, `score`, deferred `run` action) with
`valid() = True`; the nested `Visualization.Empty` sentinel has
`score = 0`, `title = None`, `valid() = False`.  The deferred Streamlit
render action is a UI side effect and is not part of the embedded
state; scores enter as rationals (see `mathLog2` for the one float
whose value is approximated). -/
structure Visualization where
  title : Option String
  score : ℚ
  valid : Bool
deriving DecidableEq, Repr

/-- The `Visualization(title, score, run)` constructor (valid candidate). -/
def Visualization.make (t : String) (sc : ℚ) : Visualization :=
  ⟨some t, sc, true⟩

/-- The `Visualization.Empty` not-applicable sentinel. -/
def Visualization.empty : Visualization :=
  ⟨none, 0, false⟩

/-- `DummyVisualizer.visualize`: unconditionally returns the valid
candidate `Visualization(title="📋 Returned tuples", score=0, run=...)`;
the query and response only feed the deferred render closure. -/
def DummyVisualizer.visualize (_q : Query) (_response : List Relation) : Visualization :=
  Visualization.make "📋 Returned tuples" 0

/-- Python `math.log2` on a list length: raises `ValueError` ("math
domain error") at `0`.  On positive input the real code returns the
float base-2 logarithm; only its definedness and sign matter to the
properties proved here, so the value is rendered as `Nat.log2`. -/
def mathLog2 (n : Nat) : Except PyError ℚ :=
  if n = 0 then .error .valueError else .ok (Nat.log2 n : ℚ)

/-- `GraphVisualizer.visualize`: builds the deferred graph-drawing
closure and returns `Visualization(title="🔗 Entity graph",
score=max(0.1, math.log2(len(response))), run=...)`; the score argument
is evaluated eagerly, so the `math.log2` error propagates. -/
def GraphVisualizer.visualize (_q : Query) (response : List Relation) :
    Except PyError Visualization :=
  (mathLog2 response.length).map
    (fun lg => Visualization.make "🔗 Entity graph" (max (1/10 : ℚ) lg))

/-- `MapVisualizer.visualize`'s `mapeable` list: every endpoint entity
of every response relation whose name is in the visualizable region set
(loaded from `countries.geo.json`; passed here as a parameter). -/
def mapeableOf (visualizables : List String) (response : List Relation) : List Entity :=
  response.flatMap (fun r =>
    ([r.entity_from, r.entity_to]).filter (fun e => visualizables.contains e.name))

/-- `MapVisualizer.visualize`: returns `Visualization.Empty()` when
`mapeable` is empty, otherwise a valid candidate with
`score=len(mapeable)/len(response)`. -/
def MapVisualizer.visualize (visualizables : List String) (_q : Query)
    (response : List Relation) : Visualization :=
  if (mapeableOf visualizables response).isEmpty then Visualization.empty
  else Visualization.make "🗺️ Map"
    ((mapeableOf visualizables response).length / (response.length : ℚ))

/-- Python dict-style `Entity.get(k)`: the attribute value, or `None`
when absent (accessor modelled from the spec's open-ended attribute
mapping, as for `Entity.attrs`). -/
def Entity.get (e : Entity) (k : String) : Option Value :=
  List.lookup k e.attrs

/-- Python dict-style `Relation.get(k)` (same modelling note). -/
def Relation.get (r : Relation) (k : String) : Option Value :=
  List.lookup k r.attrs

/-- Keys of an attribute bag (`set(mapping)` in Python yields the keys). -/
def attrKeys (l : List (String × Value)) : Finset String :=
  (l.map Prod.fst).toFinset

/-- `PredictVisualizer`: `attrs = set(relation.entity_from.attrs);
attrs.update(relation.attrs)` — the attribute names observed on one
record. -/
def observedAttrs (r : Relation) : Finset String :=
  attrKeys r.entity_from.attrs ∪ attrKeys r.attrs

/-- `PredictVisualizer`: `set(str(a) for a in query.attributes)`. -/
def predictTerms (attributes : List String) : Finset String :=
  attributes.toFinset

/-- One iteration of `PredictVisualizer`'s first loop: skip a record
with no target attribute (`if not targets: continue`), otherwise add
its targets to `target_attributes` and its remaining attributes to
`features`. -/
def scanStep (terms : Finset String) (acc : Finset String × Finset String)
    (r : Relation) : Finset String × Finset String :=
  let attrs := observedAttrs r
  let targets := attrs ∩ terms
  if targets = ∅ then acc else (acc.1 ∪ targets, acc.2 ∪ (attrs \ targets))

/-- `PredictVisualizer`'s first loop: the accumulated
`(target_attributes, features)` pair. -/
def predictScan (response : List Relation) (terms : Finset String) :
    Finset String × Finset String :=
  response.foldl (scanStep terms) (∅, ∅)

/-- Python `a or b`: `a` when truthy, else `b` (with `None` falsy). -/
def pyOr (a b : Option Value) : Option Value :=
  match a with
  | some v => if v.truthy then some v else b
  | none => b

/-- `relation.entity_from.get(k) or relation.get(k)` — how
`PredictVisualizer`'s second loop reads one attribute of one record. -/
def combinedGet (r : Relation) (k : String) : Option Value :=
  pyOr (r.entity_from.get k) (r.get k)

/-- `PredictVisualizer`'s second loop: a record survives into
`data`/`targets` iff no feature or target attribute reads as `None`
(`if None in datum.values() or None in target.values(): continue`). -/
def predictKept (response : List Relation) (attributes : List String) : List Relation :=
  let tf := predictScan response (predictTerms attributes)
  response.filter (fun r =>
    decide (∀ k ∈ tf.2 ∪ tf.1, (combinedGet r k).isSome = true))

/-- The attribute names observed across the records that contribute to
the partition (those with at least one query-named attribute). -/
def contributingAttrs (response : List Relation) (terms : Finset String) : Finset String :=
  match response with
  | [] => ∅
  | r :: rest =>
      (if observedAttrs r ∩ terms = ∅ then ∅ else observedAttrs r) ∪
        contributingAttrs rest terms

/-! Concrete fixtures for evaluated statements. -/

def parisCity : Entity := ⟨"Paris", "City", []⟩

def franceCountry : Entity := ⟨"France", "Country", []⟩

/-- A capital-of fact carrying one extra attribute. -/
def capitalRelA : Relation :=
  ⟨"capital_of", parisCity, franceCountry, [("weight", Value.num 1)]⟩

/-- The same (from, label, to) fact with a different attribute payload. -/
def capitalRelB : Relation :=
  ⟨"capital_of", parisCity, franceCountry, [("source", Value.str "wiki")]⟩

/-- A relation whose subject and object entity names differ. -/
def worksRel : Relation :=
  ⟨"works_at", ⟨"alice", "Person", []⟩, ⟨"acme", "Company", []⟩, []⟩

/-- A self-loop relation: subject and object share the name "A". -/
def loopRel : Relation := ⟨"l", ⟨"A", "T", []⟩, ⟨"A", "T", []⟩, []⟩

/-- C1: Relation identity does ignore attribute payloads
(`capitalRelA = capitalRelB` under `Relation.__eq__`), but the storage
half of the claim fails on the code: `DummyStorage.store` adds the
relation to a Python `set`, and `Relation` defines `__eq__` without
`__hash__`, so the very first `store` raises `TypeError` instead of
deduplicating — `size` never counts the triple at all. -/
theorem store_dedup_code_bug :
    relationEq capitalRelA capitalRelB = true ∧
    DummyStorage.store capitalRelA [] = Except.error PyError.typeError :=
  ⟨by decide, rfl⟩

/-- C2 (amended): for every relation and every What query, membership
in the resolved result is exactly
`entity_from.name = query.entity ∧ label = query.relation`; a Who query
matches by the mirror condition on `entity_to.name` — both iffs hold
unconditionally; and when the relation's subject and object names
differ, it is never returned by both the What and the Who query for the
same entity and relation. -/
theorem whatWho_directional (s : List Relation) (e rel : String) (r : Relation) :
    (r ∈ (DummyQueryResolver.resolve (Query.what e rel) s).getD [] ↔
      r ∈ s ∧ r.entity_from.name = e ∧ r.label = rel) ∧
    (r ∈ (DummyQueryResolver.resolve (Query.who e rel) s).getD [] ↔
      r ∈ s ∧ r.entity_to.name = e ∧ r.label = rel) ∧
    (r.entity_from.name ≠ r.entity_to.name →
      ¬(r ∈ (DummyQueryResolver.resolve (Query.what e rel) s).getD [] ∧
          r ∈ (DummyQueryResolver.resolve (Query.who e rel) s).getD [])) := by
  have hwhat : r ∈ (DummyQueryResolver.resolve (Query.what e rel) s).getD [] ↔
      r ∈ s ∧ r.entity_from.name = e ∧ r.label = rel := by
    show r ∈ query_what s e rel ↔ _
    simp [query_what, List.mem_filter, and_assoc]
  have hwho : r ∈ (DummyQueryResolver.resolve (Query.who e rel) s).getD [] ↔
      r ∈ s ∧ r.entity_to.name = e ∧ r.label = rel := by
    show r ∈ query_who s e rel ↔ _
    simp [query_who, List.mem_filter, and_assoc]
  refine ⟨hwhat, hwho, ?_⟩
  rintro hne ⟨h1, h2⟩
  exact hne ((hwhat.mp h1).2.1.trans (hwho.mp h2).2.1.symm)

/-- C2 witness: the mutual-exclusion clause evaluated on a concrete
works_at relation whose endpoints differ, with the distinctness
hypothesis discharged there. -/
theorem whatWho_directional_witness :
    ¬(worksRel ∈ (DummyQueryResolver.resolve (Query.what "alice" "works_at") [worksRel]).getD [] ∧
        worksRel ∈ (DummyQueryResolver.resolve (Query.who "alice" "works_at") [worksRel]).getD []) :=
  (whatWho_directional [worksRel] "alice" "works_at" worksRel).2.2 (by decide)

/-- C2 counterexample: a self-loop relation `(A)-[l]->(A)` is returned
both by the What query for subject `A` and by the Who query naming `A`
as object, so the claim's mutual-exclusion clause fails as stated. -/
theorem whatWho_selfloop_counterexample :
    loopRel ∈ (DummyQueryResolver.resolve (Query.what "A" "l") [loopRel]).getD [] ∧
    loopRel ∈ (DummyQueryResolver.resolve (Query.who "A" "l") [loopRel]).getD [] := by
  decide

/-- C3: Match OR-semantics — a stored relation is in the resolved
result of a Match query exactly when its from-entity name, its label,
or its to-entity name occurs among the query's free terms. -/
theorem match_or_semantics (s : List Relation) (terms : List String) (r : Relation) :
    r ∈ (DummyQueryResolver.resolve (Query.matchQ terms) s).getD [] ↔
      r ∈ s ∧ (r.entity_from.name ∈ terms ∨ r.label ∈ terms ∨ r.entity_to.name ∈ terms) := by
  show r ∈ query_match s terms ↔ _
  simp [query_match, List.mem_filter, or_assoc]

/-- C4: resolve determinism and dedup — on a storage state with no two
`Relation.__eq__`-equal members (the invariant a Python set maintains),
every result the in-memory resolver returns is again free of equal
pairs, and resolving the same query twice on the same state yields
identical results (resolution is a pure function of the state). -/
theorem resolve_dedup_deterministic (q : Query) (s : List Relation)
    (h : s.Pairwise (fun a b => relationEq a b = false)) :
    (∀ l, DummyQueryResolver.resolve q s = some l →
        l.Pairwise (fun a b => relationEq a b = false)) ∧
    DummyQueryResolver.resolve q s = DummyQueryResolver.resolve q s := by
  refine ⟨?_, rfl⟩
  intro l hl
  cases q <;> simp [DummyQueryResolver.resolve] at hl <;> subst hl <;>
    exact h.sublist (List.filter_sublist s)

/-- C4 witness: the dedup and determinism conclusion evaluated on a
concrete one-element storage state. -/
theorem resolve_dedup_deterministic_witness :
    (∀ l, DummyQueryResolver.resolve (Query.matchQ ["acme"]) [worksRel] = some l →
        l.Pairwise (fun a b => relationEq a b = false)) ∧
    DummyQueryResolver.resolve (Query.matchQ ["acme"]) [worksRel] =
      DummyQueryResolver.resolve (Query.matchQ ["acme"]) [worksRel] :=
  resolve_dedup_deterministic (Query.matchQ ["acme"]) [worksRel] (by simp)

/-- C5 (amended): for every Query variant outside Match/What/Who the
in-memory resolver's `resolve` falls through its `isinstance` chain and
returns Python `None` — a silent absent result, not an explicit
error. -/
theorem unknown_variant_returns_none (s : List Relation) (es rs as : List String) :
    DummyQueryResolver.resolve (Query.howMany es rs as) s = none ∧
    DummyQueryResolver.resolve (Query.whichQ es rs as) s = none ∧
    DummyQueryResolver.resolve (Query.whereQ es rs as) s = none ∧
    DummyQueryResolver.resolve (Query.predict es rs as) s = none :=
  ⟨rfl, rfl, rfl, rfl⟩

/-- C5 counterexample: a HowMany query against a non-empty store
resolves to `None` — the resolver completes without raising, refuting
the fail-fast claim as stated. -/
theorem unknown_variant_counterexample :
    DummyQueryResolver.resolve (Query.howMany ["Country"] [] ["population"])
      [⟨"is_a", ⟨"Cuba", "Country", []⟩, ⟨"Country", "Type", []⟩, []⟩] = none := rfl

/-- C6: renderer totality fails on the code — `GraphVisualizer`
computes `max(0.1, math.log2(len(response)))` eagerly, and on an empty
result list `math.log2(0)` raises `ValueError` (math domain error), so
the renderer neither returns the not-applicable sentinel nor a scored
candidate there. -/
theorem graph_visualizer_empty_raises :
    GraphVisualizer.visualize (Query.matchQ ["Paris"]) [] =
      Except.error PyError.valueError := rfl

/-- C7: the plain tuple-listing fallback renderer is always applicable —
for every query and every result list it returns a valid candidate
titled "📋 Returned tuples" and never the not-applicable sentinel. -/
theorem dummy_visualizer_always_applicable (q : Query) (response : List Relation) :
    (DummyVisualizer.visualize q response).valid = true ∧
    (DummyVisualizer.visualize q response).title = some "📋 Returned tuples" ∧
    DummyVisualizer.visualize q response ≠ Visualization.empty := by
  refine ⟨rfl, rfl, ?_⟩
  intro hEq
  simp [DummyVisualizer.visualize, Visualization.make, Visualization.empty] at hEq

/-- C7 witness: the fallback renderer evaluated on a concrete query and
an empty result list is a valid candidate. -/
theorem dummy_visualizer_always_applicable_witness :
    (DummyVisualizer.visualize (Query.matchQ ["Paris"]) []).valid = true :=
  (dummy_visualizer_always_applicable (Query.matchQ ["Paris"]) []).1

/-- C9: `Entity` and `Relation` define `__eq__` without `__hash__`, so
their instances are unhashable; consequently every `DummyStorage.store`
call raises `TypeError` when adding to the backing `set`, and the base
`QueryResolver.resolve` raises `TypeError` as soon as
`set(self._resolve(query))` receives at least one relation. -/
theorem unhashable_relations_type_error (r : Relation) (s rest : List Relation) :
    Relation.hashable = false ∧ Entity.hashable = false ∧
    DummyStorage.store r s = Except.error PyError.typeError ∧
    QueryResolver.resolve (r :: rest) = Except.error PyError.typeError :=
  ⟨rfl, rfl, rfl, rfl⟩

/-- C10: `MapVisualizer` never divides by zero — an empty `mapeable`
list (in particular, any empty response) yields the sentinel before the
division, and otherwise the response is non-empty and the score
`len(mapeable)/len(response)` is strictly positive. -/
theorem map_visualizer_no_div_by_zero (visualizables : List String) (q : Query)
    (response : List Relation) :
    (mapeableOf visualizables response = [] →
      MapVisualizer.visualize visualizables q response = Visualization.empty) ∧
    (response = [] →
      MapVisualizer.visualize visualizables q response = Visualization.empty) ∧
    (MapVisualizer.visualize visualizables q response = Visualization.empty ∨
      (response ≠ [] ∧
        0 < (MapVisualizer.visualize visualizables q response).score)) := by
  refine ⟨?_, ?_, ?_⟩
  · intro h
    simp [MapVisualizer.visualize, h]
  · intro h
    subst h
    simp [MapVisualizer.visualize, mapeableOf]
  · by_cases h : (mapeableOf visualizables response).isEmpty
    · left
      simp [MapVisualizer.visualize, h]
    · right
      have hne : mapeableOf visualizables response ≠ [] := by
        simpa [List.isEmpty_iff] using h
      have hresp : response ≠ [] := by
        intro he
        subst he
        exact hne rfl
      refine ⟨hresp, ?_⟩
      have hm : 0 < ((mapeableOf visualizables response).length : ℚ) := by
        exact_mod_cast List.length_pos.mpr hne
      have hr : 0 < ((response.length : ℚ)) := by
        exact_mod_cast List.length_pos.mpr hresp
      simpa [MapVisualizer.visualize, h, Visualization.make] using div_pos hm hr

/-- C10 witness: on an empty response the map renderer returns the
sentinel (so its score is the sentinel's 0). -/
theorem map_visualizer_no_div_by_zero_witness :
    MapVisualizer.visualize ["France"] (Query.matchQ []) [] = Visualization.empty :=
  (map_visualizer_no_div_by_zero ["France"] (Query.matchQ []) []).2.1 rfl

/-- Set identity used by the scan step: the targets and the leftover
features of one record reassemble its observed attribute set. -/
lemma scan_union_step (T F A terms : Finset String) :
    (T ∪ A ∩ terms) ∪ (F ∪ A \ (A ∩ terms)) = (T ∪ F) ∪ A := by
  ext a
  simp only [Finset.mem_union, Finset.mem_inter, Finset.mem_sdiff]
  tauto

/-- Leftover features of one record never meet the query terms. -/
lemma scan_sdiff_inter (A terms : Finset String) :
    (A \ (A ∩ terms)) ∩ terms = ∅ := by
  ext a
  simp only [Finset.mem_inter, Finset.mem_sdiff, Finset.not_mem_empty, iff_false]
  tauto

/-- Invariant of `PredictVisualizer`'s first loop: starting from an
accumulator whose target side is inside the query terms and whose
feature side avoids them, the fold keeps both properties, and the union
of the two sides grows by exactly the attributes observed on the
contributing records. -/
lemma predictScan_invariant (terms : Finset String) :
    ∀ (l : List Relation) (T F : Finset String),
      T ⊆ terms → F ∩ terms = ∅ →
      (l.foldl (scanStep terms) (T, F)).1 ⊆ terms ∧
      (l.foldl (scanStep terms) (T, F)).2 ∩ terms = ∅ ∧
      (l.foldl (scanStep terms) (T, F)).1 ∪ (l.foldl (scanStep terms) (T, F)).2 =
        (T ∪ F) ∪ contributingAttrs l terms := by
  intro l
  induction l with
  | nil =>
      intro T F hT hF
      exact ⟨hT, hF, by simp [contributingAttrs]⟩
  | cons r rest ih =>
      intro T F hT hF
      by_cases hc : observedAttrs r ∩ terms = ∅
      · have hstep : scanStep terms (T, F) r = (T, F) := by
          simp [scanStep, hc]
        obtain ⟨a, b, c⟩ := ih T F hT hF
        rw [List.foldl_cons, hstep]
        refine ⟨a, b, ?_⟩
        rw [c]
        simp [contributingAttrs, hc]
      · have hstep : scanStep terms (T, F) r =
            (T ∪ observedAttrs r ∩ terms,
              F ∪ observedAttrs r \ (observedAttrs r ∩ terms)) := by
          simp [scanStep, hc]
        have hT' : T ∪ observedAttrs r ∩ terms ⊆ terms :=
          Finset.union_subset hT Finset.inter_subset_right
        have hF' : (F ∪ observedAttrs r \ (observedAttrs r ∩ terms)) ∩ terms = ∅ := by
          rw [Finset.union_inter_distrib_right, hF, scan_sdiff_inter]
          simp
        obtain ⟨a, b, c⟩ := ih (T ∪ observedAttrs r ∩ terms)
          (F ∪ observedAttrs r \ (observedAttrs r ∩ terms)) hT' hF'
        rw [List.foldl_cons, hstep]
        refine ⟨a, b, ?_⟩
        rw [c, scan_union_step]
        have hcontr : contributingAttrs (r :: rest) terms =
            observedAttrs r ∪ contributingAttrs rest terms := by
          simp [contributingAttrs, hc]
        rw [hcontr]
        ext x
        simp only [Finset.mem_union]
        tauto

/-- C8 (amended): `PredictVisualizer` partitions the attributes
observed across the records carrying at least one query-named
attribute into the `target_attributes` named by the query
(`T ⊆ terms`) and the disjoint `features` set containing none of the
query-named attributes (`F ∩ terms = ∅`) — attributes observed only on
records with no query-named attribute join neither side — and every
record for which some attribute of either partition reads as `None` is
dropped from the data used for prediction. -/
theorem predict_partition_and_drop (response : List Relation) (attributes : List String) :
    (predictScan response (predictTerms attributes)).1 ⊆ predictTerms attributes ∧
    (predictScan response (predictTerms attributes)).2 ∩ predictTerms attributes = ∅ ∧
    Disjoint (predictScan response (predictTerms attributes)).1
      (predictScan response (predictTerms attributes)).2 ∧
    (predictScan response (predictTerms attributes)).1 ∪
        (predictScan response (predictTerms attributes)).2 =
      contributingAttrs response (predictTerms attributes) ∧
    ∀ r ∈ response,
      (∃ k ∈ (predictScan response (predictTerms attributes)).1 ∪
          (predictScan response (predictTerms attributes)).2,
        combinedGet r k = none) →
      r ∉ predictKept response attributes := by
  obtain ⟨h1, h2, h3⟩ := predictScan_invariant (predictTerms attributes) response ∅ ∅
    (by simp) (by simp)
  have hscan : predictScan response (predictTerms attributes) =
      response.foldl (scanStep (predictTerms attributes)) (∅, ∅) := rfl
  rw [hscan]
  refine ⟨h1, h2, ?_, by simpa using h3, ?_⟩
  · rw [Finset.disjoint_left]
    intro a haT haF
    have hmem : a ∈ (response.foldl (scanStep (predictTerms attributes)) (∅, ∅)).2 ∩
        predictTerms attributes := Finset.mem_inter.mpr ⟨haF, h1 haT⟩
    rw [h2] at hmem
    exact absurd hmem (Finset.not_mem_empty a)
  · rintro r hr ⟨k, hk, hnone⟩ hkept
    have hall := (List.mem_filter.mp hkept).2
    rw [decide_eq_true_eq] at hall
    have hk' : k ∈ (predictScan response (predictTerms attributes)).2 ∪
        (predictScan response (predictTerms attributes)).1 := by
      rw [Finset.union_comm]
      exact hk
    have := hall k hk'
    rw [hnone] at this
    simp at this

/-- A record carrying none of the query-named attributes. -/
def predictFixtureA : Relation :=
  ⟨"is_a", ⟨"x", "T", [("a", Value.num 1)]⟩, ⟨"c", "T", []⟩, []⟩

/-- A record carrying the target attribute "t" and a feature "b". -/
def predictFixtureB : Relation :=
  ⟨"is_a", ⟨"y", "T", [("t", Value.num 2), ("b", Value.num 3)]⟩, ⟨"c", "T", []⟩, []⟩

/-- C8 witness: on a concrete response, the record whose target
attribute "t" reads as `None` is dropped from the prediction data. -/
theorem predict_partition_and_drop_witness :
    predictFixtureA ∉ predictKept [predictFixtureA, predictFixtureB] ["t"] :=
  (predict_partition_and_drop [predictFixtureA, predictFixtureB] ["t"]).2.2.2.2
    predictFixtureA (by decide) ⟨"t", by decide, by decide⟩

/-- C8 counterexample: the attribute "a" is observed on a record of the
response (one carrying no query-named attribute), is not named by the
query, and yet lands in neither the target nor the feature side of the
partition — so "every other observed attribute" fails as frozen. -/
theorem predict_partition_counterexample :
    "a" ∈ observedAttrs predictFixtureA ∧
    "a" ∉ predictTerms ["t"] ∧
    "a" ∉ (predictScan [predictFixtureA, predictFixtureB] (predictTerms ["t"])).1 ∪
      (predictScan [predictFixtureA, predictFixtureB] (predictTerms ["t"])).2 := by
  decide

end Leto
